import Mathlib

/-!
# Verification of the crayon core (nga.py, color.py, dmap.py)

A shallow embedding of the data model and operations of the crayon
repository, together with theorems settling the specification claims.

Modelling conventions:
* numpy float values are modelled by `ℚ` where only field arithmetic and
  comparisons occur, and by `ℝ` where the transcendental `np.exp` appears;
* the float `NaN` is modelled by `Option.none`, the float `+Inf` sentinel
  of the distance matrix by `⊤ : WithTop ℚ`;
* a Python `dict` is modelled by an association list queried with
  `List.lookup` (an update shadows the previous binding);
* a Python exception is modelled by `Except`; where a claim concerns the
  state left behind by an exception, the error value carries the mutated
  state, since Python exceptions do not roll back mutations;
* external capabilities (the `_crayon.graph` invariant computation and
  `np.linalg.eig`) are opaque per the spec; a `Graph` carries the data the
  capability produced, and the eigendecomposition enters as an oracle
  argument.
-/

deriving instance DecidableEq for Except

/- `Rat.add` and friends are `@[irreducible]` by default, which blocks
`decide`/`rfl` evaluation of the concrete witnesses below; restore
kernel-style reduction locally. -/
set_option allowUnsafeReducibility true
attribute [local semireducible] Rat.add Rat.sub Rat.mul Rat.inv Rat.ofScientific

namespace Crayon

/-! ## nga.py: Graph

`Graph.__init__` stores the signature data and the normalized graph-wide
graphlet degree vector `ngdv` produced by the opaque `_crayon.graph`
capability.  `__sub__` is the Euclidean norm of the difference of the two
`ngdv` vectors; the code only ever compares that norm with `0`, and
`‖v‖ = 0 ↔ ‖v‖² = 0` and `‖v‖ > 0 ↔ ‖v‖² > 0`, so we work with the
squared norm `distSq`, which is exact over `ℚ`. -/

structure Graph where
  sig : String
  ngdv : List ℚ
deriving DecidableEq, Repr

instance : Inhabited Graph := ⟨⟨"", []⟩⟩

/-- Squared Euclidean distance between the `ngdv` vectors of two graphs
(`np.linalg.norm(self.ngdv-other.ngdv)` squared). -/
def distSq (a b : Graph) : ℚ :=
  ((a.ngdv.zipWith (· - ·) b.ngdv).map (fun x => x ^ 2)).sum

/-- `Graph.__ne__`: `(self - other > 0.)`, stated on the squared norm. -/
def Graph.pyNe (a b : Graph) : Prop := 0 < distSq a b

instance (a b : Graph) : Decidable (Graph.pyNe a b) := by
  unfold Graph.pyNe; infer_instance

theorem distSq_self (g : Graph) : distSq g g = 0 := by
  unfold distSq
  induction g.ngdv with
  | nil => rfl
  | cons a t ih =>
      simp only [List.zipWith_cons_cons, List.map_cons, List.sum_cons, ih]
      ring

/-! ## nga.py: GraphLibrary -/

structure GraphLibrary where
  sigs : List String
  graphs : List Graph
  counts : List ℚ
  index : List (String × ℕ)
deriving DecidableEq, Repr

instance : Inhabited GraphLibrary := ⟨⟨[], [], [], []⟩⟩

/-- `GraphLibrary.__init__`. -/
def GraphLibrary.empty : GraphLibrary := ⟨[], [], [], []⟩

/-- Python-level error values raised by the library operations. -/
inductive PyErr where
  | typeError : PyErr
  | attributeError : PyErr
  | indexError : PyErr
  | runtimeError : String → PyErr
deriving DecidableEq, Repr

/-- `GraphLibrary.encounter(G, count)`.

The `try` block looks the signature up in the index; on success the count
at the found index is incremented *first*, on `KeyError` the graph, its
signature and its count are appended and the index extended.  Afterwards
the structural-identity check `self.graphs[idx] != G` runs and raises
`RuntimeError` on a degenerate GDD.  The error value carries the library
state at the point of the raise, because the mutation performed before the
check is not rolled back. -/
def GraphLibrary.encounter (lib : GraphLibrary) (G : Graph) (count : ℚ) :
    Except (PyErr × GraphLibrary) (GraphLibrary × ℕ) :=
  let sig := G.sig
  let found := List.lookup sig lib.index
  let idx := match found with
    | some i => i
    | none => lib.graphs.length
  let lib' := match found with
    | some i =>
        { lib with counts := lib.counts.set i (lib.counts.getD i 0 + count) }
    | none =>
        { lib with
          sigs := lib.sigs ++ [sig]
          graphs := lib.graphs ++ [G]
          counts := lib.counts ++ [count]
          index := (sig, lib.graphs.length) :: lib.index }
  if Graph.pyNe (lib'.graphs.getD idx default) G then
    .error (.runtimeError ("Found degenerate GDD: " ++ sig), lib')
  else
    .ok (lib', idx)

/-- A dynamically-typed value passed to `GraphLibrary.collect`: either an
actual `GraphLibrary` or some other Python object. -/
inductive PyVal where
  | lib : GraphLibrary → PyVal
  | scalar : ℤ → PyVal
deriving DecidableEq, Repr

/-- The inner loop of `GraphLibrary.collect`: re-encounter every graph of
`other` with its recorded count (or `0` when `counts` is false). -/
def GraphLibrary.encounterAll (lib : GraphLibrary) (other : GraphLibrary)
    (counts : Bool) : Except (PyErr × GraphLibrary) GraphLibrary :=
  (List.range other.graphs.length).foldlM
    (fun l i =>
      (l.encounter (other.graphs.getD i default)
        (if counts then other.counts.getD i 0 else 0)).map Prod.fst)
    lib

/-- The `for other in others` loop of `GraphLibrary.collect`.  Reaching a
non-library element raises `AttributeError` (`other.graphs` does not
exist); the error carries the library state reached so far. -/
def GraphLibrary.collectLoop (lib : GraphLibrary) (others : List PyVal)
    (counts : Bool) : Except (PyErr × GraphLibrary) GraphLibrary :=
  match others with
  | [] => .ok lib
  | .scalar _ :: _ => .error (.attributeError, lib)
  | .lib o :: rest => do
      let lib' ← lib.encounterAll o counts
      lib'.collectLoop rest counts

/-- `GraphLibrary.collect(others)` after the caller-side list wrapping:
`others[0]` is inspected (raising `IndexError` on an empty list) and a
`TypeError` is raised when it is not a `GraphLibrary`; only then does the
merge loop run.  Elements past the first are never type-checked. -/
def GraphLibrary.collectPy (lib : GraphLibrary) (others : List PyVal)
    (counts : Bool) : Except (PyErr × GraphLibrary) GraphLibrary :=
  match others with
  | [] => .error (.indexError, lib)
  | .scalar _ :: _ => .error (.typeError, lib)
  | .lib _ :: _ => lib.collectLoop others counts

/-- The argument of `GraphLibrary.collect` before normalization:
`if type(others) != list: others = list([others])`. -/
inductive PyArg where
  | single : PyVal → PyArg
  | list : List PyVal → PyArg
deriving DecidableEq, Repr

def GraphLibrary.collectArg (lib : GraphLibrary) (arg : PyArg)
    (counts : Bool) : Except (PyErr × GraphLibrary) GraphLibrary :=
  match arg with
  | .single v => lib.collectPy [v] counts
  | .list vs => lib.collectPy vs counts

/-- Well-formedness of a library: parallel arrays have equal length and
the index maps into range.  Holds for every library built by the public
operations. -/
def GraphLibrary.WF (lib : GraphLibrary) : Prop :=
  lib.counts.length = lib.graphs.length ∧
  lib.sigs.length = lib.graphs.length ∧
  ∀ p ∈ lib.index, p.2 < lib.graphs.length

instance (lib : GraphLibrary) : Decidable lib.WF := by
  unfold GraphLibrary.WF; infer_instance

/-! ## nga.py: Ensemble

Only the coordinator-side merge logic of `Ensemble.collect` and the
master-side assembly of `Ensemble.computeDists` are claim-relevant; the
MPI gather/broadcast plumbing transports values verbatim and is modelled
by passing the gathered values as arguments. -/

/-- A per-frame lookup (`Snapshot.lookup`): signature → particle indices. -/
abbrev Lookup := List (String × List ℕ)

structure Ensemble where
  library : GraphLibrary
  lookups : List (ℕ × Lookup)
deriving DecidableEq, Repr

instance : Inhabited Ensemble := ⟨⟨default, []⟩⟩

/-- The warning printed on a duplicate frame-index key. -/
def dupKeyWarning : String :=
  "Warning: duplicate lookup key detected during Ensemble.collect"

/-- `dict` assignment `self.lookups[key] = val`: the new binding shadows
any earlier one for `List.lookup`. -/
def dictSet (d : List (ℕ × Lookup)) (k : ℕ) (v : Lookup) :
    List (ℕ × Lookup) := (k, v) :: d

/-- One iteration of the `for key, val in other.lookups.items()` loop of
`Ensemble.collect`: a key already present produces the warning, and the
value is then written regardless. -/
def mergeStep (p : List (ℕ × Lookup) × List String) (kv : ℕ × Lookup) :
    List (ℕ × Lookup) × List String :=
  ( dictSet p.1 kv.1 kv.2,
    if (List.lookup kv.1 p.1).isSome then p.2 ++ [dupKeyWarning]
    else p.2 )

/-- The whole `for key, val in other.lookups.items()` loop. -/
def mergeLookupsOne (acc : List (ℕ × Lookup)) (olk : List (ℕ × Lookup)) :
    List (ℕ × Lookup) × List String :=
  olk.foldl mergeStep (acc, [])

/-- One iteration of the `for other in others` loop of
`Ensemble.collect`: merge the other library, then merge its lookups. -/
def Ensemble.collectStep (p : Ensemble × List String) (o : Ensemble) :
    Except PyErr (Ensemble × List String) := do
  let lib' ← (p.1.library.collectPy [PyVal.lib o.library] true).mapError
    Prod.fst
  let (lk, ws) := mergeLookupsOne p.1.lookups o.lookups
  pure (⟨lib', lk⟩, p.2 ++ ws)

/-- Coordinator side of `Ensemble.collect` on the gathered worker
ensembles (the `others[0]` type check cannot fail in the typed model and
the empty-gather early return yields the unchanged ensemble). -/
def Ensemble.collectMaster (e : Ensemble) (others : List Ensemble) :
    Except PyErr (Ensemble × List String) :=
  others.foldlM Ensemble.collectStep (e, [])

/-! ### Ensemble.computeDists (master side) -/

/-- The task list: full Cartesian product of graph indices with landmark
indices (`for i in range(n): for j in range(m): (i, lm_idx[j])`). -/
def taskListM (n : ℕ) (lm_idx : List ℕ) : List (ℕ × ℕ) :=
  (List.range n).flatMap (fun i => lm_idx.map (fun j => (i, j)))

/-- `self.dists = np.zeros((n,m)) + np.Inf`: every cell starts at the
`+Inf` sentinel (`⊤`).  The matrix is modelled as a total map from index
pairs. -/
def initDists : ℕ → ℕ → WithTop ℚ := fun _ _ => ⊤

/-- Result assembly: for each `k < len(result_list)` look up the task,
recover the column by the first position of the landmark index in
`lm_idx` (`np.argwhere(self.lm_idx == j)[0]`), and overwrite the cell.
`List.zip` truncates to the returned results, exactly like the loop over
`range(len(result_list))`. -/
def assembleDists (tasks : List (ℕ × ℕ)) (lm_idx : List ℕ)
    (results : List ℚ) : ℕ → ℕ → WithTop ℚ :=
  (tasks.zip results).foldl
    (fun D t =>
      fun a b =>
        if a = t.1.1 ∧ b = lm_idx.indexOf t.1.2 then ((t.2 : ℚ) : WithTop ℚ)
        else D a b)
    initDists

/-- Master side of `Ensemble.computeDists` up to the outlier stage. -/
def computeDistsMaster (n : ℕ) (lm_idx : List ℕ) (results : List ℚ) :
    ℕ → ℕ → WithTop ℚ :=
  assembleDists (taskListM n lm_idx) lm_idx results

/-! ## dmap.py: the kernel of DMap.compute

Lines 32–35 of `dmap.py`:
`inv_neg_2eps = -1./(2.*self.epsilon)`;
`kernel = np.exp(dists**2 * inv_neg_2eps)`;
`rsum = np.sum(kernel, axis=1)`;
`kernel = np.matmul(np.diag(1./rsum), kernel)`.
`np.exp` forces the value field to be `ℝ`. -/

noncomputable def kernelRaw (n : ℕ) (dists : Fin n → Fin n → ℝ)
    (epsilon : ℝ) : Fin n → Fin n → ℝ :=
  let inv_neg_2eps : ℝ := -1 / (2 * epsilon)
  fun i j => Real.exp ((dists i j) ^ 2 * inv_neg_2eps)

noncomputable def rowSum (n : ℕ) (K : Fin n → Fin n → ℝ) : Fin n → ℝ :=
  fun i => ∑ j, K i j

/-- The row-normalized Markov matrix `np.matmul(np.diag(1./rsum), kernel)`. -/
noncomputable def markovMatrix (n : ℕ) (dists : Fin n → Fin n → ℝ)
    (epsilon : ℝ) : Matrix (Fin n) (Fin n) ℝ :=
  Matrix.diagonal (fun i => 1 / rowSum n (kernelRaw n dists epsilon) i) *
    Matrix.of (kernelRaw n dists epsilon)

/-- The kernel the specification describes for `DMap.compute`:
`K[i,j] = exp(−d[i,j]² / (2·epsilon²))`.  Written from the spec's words,
to be compared against `kernelRaw`. -/
noncomputable def specKernel (n : ℕ) (dists : Fin n → Fin n → ℝ)
    (epsilon : ℝ) : Fin n → Fin n → ℝ :=
  fun i j => Real.exp (-(dists i j) ^ 2 / (2 * epsilon ^ 2))

/-! ## dmap.py: eigenvalue post-processing of DMap.compute

Lines 37–43: `np.linalg.eig` is an external numeric routine; its raw
output (complex eigenvalues paired with eigenvector columns) enters as
data.  A complex number is a pair `(re, im)`; `np.real` projects to the
first component.  The post-processing — real parts, `np.argsort(evals)`
(ascending) reversed by `[::-1]`, then the slice `[1:1+num_evec]` — is
pure array manipulation, embedded exactly. -/

def realList (l : List (ℚ × ℚ)) : List ℚ := l.map Prod.fst

/-- `np.argsort(evals)[::-1]`: the index permutation sorting ascending,
reversed to descending. -/
def argsortDesc (vals : List ℚ) : List ℕ :=
  (List.insertionSort (fun i j => vals.getD i 0 ≤ vals.getD j 0)
    (List.range vals.length)).reverse

/-- `evals[idx][1:1+k]` and `evecs[:,idx][:,1:1+k]` with the eigenvector
matrix represented by its list of columns (column `i` pairs with
eigenvalue `i`, as in `np.linalg.eig`). -/
def computePost (k : ℕ) (evalsC : List (ℚ × ℚ))
    (evecColsC : List (List (ℚ × ℚ))) : List ℚ × List (List ℚ) :=
  let evals := realList evalsC
  let cols := evecColsC.map realList
  let idx := argsortDesc evals
  ( ((idx.map (fun i => evals.getD i 0)).drop 1).take k,
    ((idx.map (fun i => cols.getD i [])).drop 1).take k )

/-! ## dmap.py: DMap object state -/

/-- The attributes of a `DMap` object.  `none` models an attribute that
is absent (reading it raises `AttributeError`) or set to Python `None`.
`eigenvec` and `eigenval` are the fields read by `DMap.embed`; no method
ever assigns them, so `__init__` leaves them absent. -/
structure DMapState where
  alpha : ℚ
  num_evec : ℕ
  epsilon : Option ℚ
  dists : Option (List (List ℚ))
  evals : Option (List ℚ)
  evecs : Option (List (List ℚ))
  evecs_ny : Option (List (List ℚ))
  coords : Option (List (List ℚ))
  eigenvec : Option (List (List ℚ))
  eigenval : Option (List ℚ)
deriving DecidableEq, Repr

/-- `DMap.__init__(num_evec)`. -/
def DMapInit (num_evec : ℕ) : DMapState :=
  { alpha := 1, num_evec := num_evec, epsilon := none, dists := none,
    evals := none, evecs := none, evecs_ny := none, coords := none,
    eigenvec := none, eigenval := none }

/-- The output of `np.linalg.eig` on the Markov matrix: complex
eigenvalues and the matching eigenvector columns. -/
structure EigOracle where
  evals : List (ℚ × ℚ)
  evecCols : List (List (ℚ × ℚ))
deriving DecidableEq, Repr

/-- `DMap.compute(dists, epsilon)`: stores `epsilon` and `dists`, feeds
the row-normalized kernel to `np.linalg.eig` (the oracle), and stores the
post-processed eigenvalues and eigenvector columns.  `eigenvec` and
`eigenval` are untouched. -/
def DMapCompute (st : DMapState) (dists : List (List ℚ)) (epsilon : ℚ)
    (eig : EigOracle) : DMapState :=
  { st with
    epsilon := some epsilon
    dists := some dists
    evals := some (computePost st.num_evec eig.evals eig.evecCols).1
    evecs := some (computePost st.num_evec eig.evals eig.evecCols).2 }

/-- The Nystrom location `np.matmul(d, self.eigenvec) / self.eigenval`
computed by the (unreachable) success path of `DMap.embed`, with
`d = np.exp(-dists**2/(2.*self.epsilon))` row-normalized. -/
noncomputable def nystromLoc (eps : ℚ) (dists : List (List ℚ))
    (V : List (List ℚ)) (lam : List ℚ) : List (List ℝ) :=
  let dK : List (List ℝ) :=
    dists.map (fun row => row.map
      (fun x => Real.exp (-((x : ℝ)) ^ 2 / (2 * (eps : ℝ)))))
  let dN := dK.map (fun row => row.map (fun x => x / row.sum))
  dN.map (fun row =>
    (List.range lam.length).map (fun k =>
      ((row.zip (V.map (fun vr => vr.getD k 0))).map
        (fun p => p.1 * ((p.2 : ℚ) : ℝ))).sum / ((lam.getD k 0 : ℚ) : ℝ)))

/-- `DMap.embed(dists)`: reads `self.eigenvec` (line 49) and then
`self.eigenval`; an absent attribute raises `AttributeError`. -/
noncomputable def DMapEmbed (st : DMapState) (dists : List (List ℚ)) :
    Except String (List (List ℝ)) :=
  match st.eigenvec with
  | none => .error "AttributeError: DMap instance has no attribute eigenvec"
  | some V =>
      match st.eigenval with
      | none =>
          .error "AttributeError: DMap instance has no attribute eigenval"
      | some lam => .ok (nystromLoc (st.epsilon.getD 0) dists V lam)

/-- Row selection `m[rows,:]` by an index list. -/
def selectRows (m : List (List ℚ)) (rows : List ℕ) : List (List ℚ) :=
  rows.map (fun i => m.getD i [])

/-- Column selection `m[:,cols]` by an index list. -/
def selectCols (m : List (List ℚ)) (cols : List ℕ) : List (List ℚ) :=
  m.map (fun r => cols.map (fun j => r.getD j 0))

/-- `np.median` of a flat list: midpoint of the ascending sort (mean of
the two middle entries for even length). -/
def npMedian (l : List ℚ) : ℚ :=
  let s := List.insertionSort (· ≤ ·) l
  let n := l.length
  if n % 2 = 1 then s.getD (n / 2) 0
  else (s.getD (n / 2 - 1) 0 + s.getD (n / 2) 0) / 2

/-- `DMap.build(dists, landmarks, valid_cols, valid_rows)`.

Defaults fill the index lists with `np.arange`; `np.power(dists, alpha)`
is the identity because `alpha` is fixed at `1.0` by `__init__`; epsilon
defaults to the median of the distances; then `compute` runs on the
landmark submatrix and `embed` on the row submatrix `L`.  When
`landmarks is None`, `L` is never assigned, so line 82 raises
`UnboundLocalError`; otherwise `embed` raises `AttributeError`
(see `DMapEmbed`), so the steps after line 82 are unreachable. -/
noncomputable def DMapBuild (st : DMapState) (dists : List (List ℚ))
    (landmarks : Option (List ℕ)) (valid_cols valid_rows : Option (List ℕ))
    (eig : EigOracle) : Except String DMapState :=
  let vr := valid_rows.getD (List.range dists.length)
  let vc := valid_cols.getD (List.range (dists.getD 0 []).length)
  let alpha_dists := dists
  let D := match landmarks with
    | none => selectCols (selectRows alpha_dists vr) vc
    | some lms => selectCols (selectRows alpha_dists lms) vc
  let eps := match st.epsilon with
    | none => npMedian alpha_dists.flatten
    | some e => e
  let st1 := DMapCompute st D eps eig
  match landmarks with
  | none => .error "UnboundLocalError: local variable L referenced before assignment"
  | some _ =>
      let L := selectCols (selectRows alpha_dists vr) vc
      (DMapEmbed st1 L).map (fun _ => st1)

/-- One public mutation of a `DMap` object.  `compute` is the only method
that assigns attributes before `build` crashes inside `embed`, and the
state `build` leaves behind at the crash is exactly a `DMapCompute`
state, so a single constructor covers every public operation. -/
inductive DMapStep : DMapState → DMapState → Prop
  | compute (st : DMapState) (dists : List (List ℚ)) (epsilon : ℚ)
      (eig : EigOracle) : DMapStep st (DMapCompute st dists epsilon eig)

/-- The states a `DMap` object can be in after `__init__` and any
sequence of public operations. -/
def DMapReachable (s : DMapState) : Prop :=
  ∃ k, Relation.ReflTransGen DMapStep (DMapInit k) s

/-! ## color.py: rankOrderTransform

A float that may be `NaN` is `Option ℚ` (`none` = `NaN`); `r[r==r]`
filters the `none`s out.  The matrix `R` is represented by its list of
columns, since the transform works column by column. -/

/-- `np.unique`: ascending sort with duplicates removed. -/
def npUnique (l : List ℚ) : List ℚ :=
  (List.insertionSort (· ≤ ·) l).dedup

/-- `np.linspace(0., 1., n)`. -/
def linspace01 (n : ℕ) : List ℚ :=
  if n = 0 then []
  else if n = 1 then [0]
  else (List.range n).map (fun i => (i : ℚ) / ((n : ℚ) - 1))

/-- `np.interp(v, xp, fp)` on the nonempty sorted sample list
`pts = xp.zip fp`: clamp below the first and above the last sample,
linear interpolation in between. -/
def interp1 (v : ℚ) : List (ℚ × ℚ) → ℚ
  | [] => 0
  | [(_, y0)] => y0
  | (x0, y0) :: (x1, y1) :: rest =>
      if v < x0 then y0
      else if v ≤ x1 then y0 + (y1 - y0) * (v - x0) / (x1 - x0)
      else interp1 v ((x1, y1) :: rest)

/-- One column of the loop body of `rankOrderTransform`:
`s = np.unique(r[r==r])`; `x = np.linspace(0.,1.,len(s))`;
`np.interp(r, s, x)`.  `np.interp` raises `ValueError` when the sample
array `s` is empty — which is precisely the case of a column containing
no non-`NaN` value — and maps a `NaN` query to `NaN`. -/
def rankColumn (r : List (Option ℚ)) : Except String (List (Option ℚ)) :=
  let s := npUnique (r.filterMap id)
  let x := linspace01 s.length
  if s.isEmpty then .error "ValueError: array of sample points is empty"
  else .ok (r.map (Option.map (fun v => interp1 v (s.zip x))))

/-- `rankOrderTransform(R)` on the columns of `R`: transform each column
in order (failing fast like the Python loop), then set every row whose
entry in the *last transformed column* is `NaN` to the all-`1.0`
sentinel (`coords[nan_idx,:] = 1.`).  With zero columns, `coords[:,-1]`
raises `IndexError`. -/
def rankOrderTransform (cols : List (List (Option ℚ))) :
    Except String (List (List (Option ℚ))) := do
  let tcols ← cols.mapM rankColumn
  match tcols.getLast? with
  | none => .error "IndexError: index -1 is out of bounds for axis 1"
  | some lastCol =>
      .ok (tcols.map (fun c =>
        c.mapIdx (fun rowIdx v =>
          if (lastCol.getD rowIdx none) = none then some 1 else v)))

/-! ## Helper lemmas -/

theorem getD_append_length (l : List α) (a : α) (d : α) :
    (l ++ [a]).getD l.length d = a := by
  simp [List.getD_eq_getElem?_getD, List.getElem?_concat_length]

theorem getD_set_self (l : List α) (i : ℕ) (v d : α) (h : i < l.length) :
    (l.set i v).getD i d = v := by
  simp [List.getD_eq_getElem?_getD, List.getElem?_set_self h]

theorem lookup_mem [BEq α] [LawfulBEq α] {a : α} {b : β}
    {l : List (α × β)} (h : List.lookup a l = some b) : (a, b) ∈ l := by
  induction l with
  | nil => simp [List.lookup] at h
  | cons p t ih =>
      obtain ⟨k, v⟩ := p
      rw [List.lookup_cons] at h
      by_cases hk : a == k
      · simp only [hk] at h
        cases h
        have : a = k := by exact eq_of_beq hk
        subst this
        exact List.mem_cons_self _ _
      · rw [Bool.not_eq_true] at hk
        simp only [hk] at h
        exact List.mem_cons_of_mem _ (ih h)

/-! ## Claim C1 -/

/-- C1 (counterexample): the claimed kernel `exp(−d²/(2·epsilon²))`
differs from the kernel `DMap.compute` actually builds.  At
`d = [[2]]`, `epsilon = 2` the code computes `exp(−1)` while the claim
prescribes `exp(−1/2)`. -/
theorem C1_kernel_counterexample :
    kernelRaw 1 (fun _ _ => 2) 2 0 0 ≠ specKernel 1 (fun _ _ => 2) 2 0 0 := by
  have h1 : kernelRaw 1 (fun _ _ => 2) 2 0 0 =
      Real.exp ((2 : ℝ) ^ 2 * (-1 / (2 * 2))) := rfl
  have h2 : specKernel 1 (fun _ _ => 2) 2 0 0 =
      Real.exp (-(2 : ℝ) ^ 2 / (2 * 2 ^ 2)) := rfl
  rw [h1, h2, Ne, Real.exp_eq_exp]
  norm_num

/-- C1 (amended): for every distance matrix `d` and bandwidth `epsilon`,
`DMap.compute` builds the Gaussian affinity kernel
`K[i,j] = exp(−d[i,j]² / (2·epsilon))` — the bandwidth enters linearly,
not squared — and row-normalizes it into
`P = diag(1/rowsum(K))·K`, i.e. `P[i,j] = K[i,j] / rowsum(K)[i]`. -/
theorem C1_kernel_and_markov (n : ℕ) (dists : Fin n → Fin n → ℝ)
    (epsilon : ℝ) (i j : Fin n) :
    kernelRaw n dists epsilon i j =
      Real.exp (-(dists i j) ^ 2 / (2 * epsilon)) ∧
    markovMatrix n dists epsilon i j =
      kernelRaw n dists epsilon i j /
        rowSum n (kernelRaw n dists epsilon) i := by
  constructor
  · show Real.exp ((dists i j) ^ 2 * (-1 / (2 * epsilon))) = _
    rw [Real.exp_eq_exp]
    ring
  · unfold markovMatrix
    rw [Matrix.diagonal_mul, Matrix.of_apply]
    ring

/-! ## Claim C6 -/

/-- C6 (counterexample): a column that is entirely NaN does not produce
all-`1.0` sentinel rows; `np.interp` receives an empty sample-point array
and raises `ValueError` instead. -/
theorem C6_allnan_counterexample :
    rankOrderTransform [[Option.none]] =
      .error "ValueError: array of sample points is empty" ∧
    rankOrderTransform [[Option.none]] ≠ .ok [[some 1]] := by
  constructor
  · decide
  · decide

/-- C6 (amended): the per-column rank/uniform transform maps a column
containing `[0, 1, 2, 3]` to `[0, 1/3, 2/3, 1]`; rows whose entry in the
last transformed column is NaN are set to the all-`1.0` sentinel; a
column that is entirely NaN instead makes the transform fail with
`np.interp`'s empty-sample-points `ValueError`. -/
theorem C6_rank_transform :
    rankOrderTransform [[some 0, some 1, some 2, some 3]] =
      .ok [[some 0, some (1/3), some (2/3), some 1]] ∧
    rankOrderTransform
        [[some 0, some 1, some 2, some 3],
         [some 5, none, some 7, some 8]] =
      .ok [[some 0, some 1, some (2/3), some 1],
           [some 0, some 1, some (1/2), some 1]] ∧
    rankOrderTransform [[some 1], [none]] =
      .error "ValueError: array of sample points is empty" := by
  refine ⟨by decide, by decide, by decide⟩

/-! ## Claim C8 -/

/-- The single-graph library that `C8_collect_counterexample` builds up
before the merge fails. -/
def exGraph : Graph := ⟨"g", [1]⟩

def exLib1 : GraphLibrary := ⟨["g"], [exGraph], [1], [("g", 0)]⟩

/-- C8 (counterexample): merging `[exLib1, 3]` — a list whose *second*
element is not a `GraphLibrary` — into an empty library does not raise a
`TypeError` and is not rejected before mutation: the loop merges
`exLib1` first and only then fails with `AttributeError`, leaving the
library mutated (it now holds one graph). -/
theorem C8_collect_counterexample :
    GraphLibrary.empty.collectPy [PyVal.lib exLib1, PyVal.scalar 3] true =
      .error (.attributeError, exLib1) ∧
    exLib1 ≠ GraphLibrary.empty := by
  constructor
  · decide
  · decide

/-- C8 (amended): `GraphLibrary.collect` type-checks only the *first*
element of the merge input: a non-library scalar input (wrapped into a
singleton list) or a list whose first element is not a library is
rejected with a `TypeError` before any mutation (the error carries the
unchanged library); a non-library element in a later position is not
caught by the type check and fails only when iteration reaches it, after
the earlier libraries have already been merged. -/
theorem C8_collect_type_check (lib : GraphLibrary) (x : ℤ)
    (rest : List PyVal) (counts : Bool) :
    lib.collectPy (PyVal.scalar x :: rest) counts =
      .error (.typeError, lib) ∧
    lib.collectArg (.single (.scalar x)) counts =
      .error (.typeError, lib) := by
  exact ⟨rfl, rfl⟩

/-! ## Claims C3 and C10 -/

/-- C3: registering a graph whose signature matches an already stored,
structurally different graph (nonzero distance) makes `encounter` raise
the `RuntimeError('Found degenerate GDD: ...')` integrity error — the
collision is reported, not silently merged. -/
theorem C3_signature_collision_fatal (lib : GraphLibrary) (G1 G2 : Graph)
    (c1 c2 : ℚ) (hsig : G1.sig = G2.sig) (hd : 0 < distSq G1 G2)
    (hfresh : List.lookup G1.sig lib.index = none) :
    ∃ lib1 i1 lib2, lib.encounter G1 c1 = .ok (lib1, i1) ∧
      lib1.encounter G2 c2 =
        .error (.runtimeError ("Found degenerate GDD: " ++ G2.sig), lib2) := by
  refine ⟨{ lib with
      sigs := lib.sigs ++ [G1.sig]
      graphs := lib.graphs ++ [G1]
      counts := lib.counts ++ [c1]
      index := (G1.sig, lib.graphs.length) :: lib.index },
    lib.graphs.length,
    { lib with
      sigs := lib.sigs ++ [G1.sig]
      graphs := lib.graphs ++ [G1]
      counts := (lib.counts ++ [c1]).set lib.graphs.length
        ((lib.counts ++ [c1]).getD lib.graphs.length 0 + c2)
      index := (G1.sig, lib.graphs.length) :: lib.index },
    ?_, ?_⟩
  · simp only [GraphLibrary.encounter, hfresh]
    rw [getD_append_length]
    rw [if_neg]
    simp [Graph.pyNe, distSq_self]
  · have hlook : List.lookup G2.sig
        ((G1.sig, lib.graphs.length) :: lib.index) =
        some lib.graphs.length := by
      rw [List.lookup_cons, hsig]
      simp
    simp only [GraphLibrary.encounter, hlook]
    rw [getD_append_length]
    simp only [Graph.pyNe]
    rw [if_pos hd]

/-- C3 witness: a fresh library, `G1 = ("s", [0])`, `G2 = ("s", [1])`:
the first registration succeeds, the second raises the integrity error. -/
theorem C3_witness :
    (⟨"s", [0]⟩ : Graph).sig = (⟨"s", [1]⟩ : Graph).sig ∧
    0 < distSq ⟨"s", [0]⟩ ⟨"s", [1]⟩ ∧
    List.lookup "s" GraphLibrary.empty.index = none ∧
    (∃ lib1 i1 lib2,
      GraphLibrary.empty.encounter ⟨"s", [0]⟩ 1 = .ok (lib1, i1) ∧
      lib1.encounter ⟨"s", [1]⟩ 1 =
        .error (.runtimeError ("Found degenerate GDD: " ++ "s"), lib2)) :=
  ⟨rfl, by decide, rfl,
    C3_signature_collision_fatal GraphLibrary.empty ⟨"s", [0]⟩ ⟨"s", [1]⟩
      1 1 rfl (by decide) rfl⟩

/-- C10: `encounter` mutates before it verifies — when the presented
graph's signature is found at `idx` but the stored graph differs
structurally, the raised integrity error leaves the library with
`counts[idx]` already incremented; the failure is not atomic. -/
theorem C10_mutation_before_check (lib : GraphLibrary) (G : Graph) (c : ℚ)
    (idx : ℕ) (hidx : List.lookup G.sig lib.index = some idx)
    (hne : 0 < distSq (lib.graphs.getD idx default) G) :
    lib.encounter G c =
      .error (.runtimeError ("Found degenerate GDD: " ++ G.sig),
        { lib with
          counts := lib.counts.set idx (lib.counts.getD idx 0 + c) }) := by
  simp only [GraphLibrary.encounter, hidx]
  simp only [Graph.pyNe]
  rw [if_pos hne]

/-- C10 witness: a library holding `("s", [0])` with count `1`; a
collision with `("s", [1])` raises and leaves the count bumped to `3`. -/
theorem C10_witness :
    List.lookup "s"
      (⟨["s"], [⟨"s", [0]⟩], [1], [("s", 0)]⟩ : GraphLibrary).index =
      some 0 ∧
    0 < distSq
      ((⟨["s"], [⟨"s", [0]⟩], [1], [("s", 0)]⟩ :
        GraphLibrary).graphs.getD 0 default) ⟨"s", [1]⟩ ∧
    (⟨["s"], [⟨"s", [0]⟩], [1], [("s", 0)]⟩ : GraphLibrary).encounter
        ⟨"s", [1]⟩ 2 =
      .error (.runtimeError ("Found degenerate GDD: " ++ "s"),
        ⟨["s"], [⟨"s", [0]⟩], [3], [("s", 0)]⟩) := by
  refine ⟨by decide, by decide, ?_⟩
  exact (C10_mutation_before_check
    ⟨["s"], [⟨"s", [0]⟩], [1], [("s", 0)]⟩ ⟨"s", [1]⟩ 2 0
    (by decide) (by decide)).trans (by decide)

/-! ## Claim C2 -/

/-- In every reachable `DMap` state the attributes `eigenvec` and
`eigenval` are absent: no public operation ever assigns them. -/
theorem DMapReachable_eigen_none (s : DMapState) (h : DMapReachable s) :
    s.eigenvec = none ∧ s.eigenval = none := by
  obtain ⟨k, hr⟩ := h
  induction hr with
  | refl => exact ⟨rfl, rfl⟩
  | tail _ hstep ih =>
      cases hstep with
      | compute d e o => exact ih

/-- C2: in every `DMap` state reachable through the public operations,
`embed` fails with an `AttributeError` (it reads the never-assigned
`self.eigenvec`/`self.eigenval`), and consequently `build`, which calls
`embed` unconditionally, never returns normally. -/
theorem C2_embed_always_fails (s : DMapState) (h : DMapReachable s) :
    (∀ d, ∃ msg, DMapEmbed s d = .error msg) ∧
    (∀ dists landmarks valid_cols valid_rows eig, ∃ msg,
      DMapBuild s dists landmarks valid_cols valid_rows eig =
        .error msg) := by
  obtain ⟨hvec, hval⟩ := DMapReachable_eigen_none s h
  constructor
  · intro d
    refine ⟨"AttributeError: DMap instance has no attribute eigenvec", ?_⟩
    unfold DMapEmbed
    rw [hvec]
  · intro dists landmarks valid_cols valid_rows eig
    cases landmarks with
    | none => exact ⟨_, rfl⟩
    | some lms =>
        refine ⟨"AttributeError: DMap instance has no attribute eigenvec", ?_⟩
        show (DMapEmbed (DMapCompute s _ _ eig) _).map _ = _
        unfold DMapEmbed
        have : (DMapCompute s
            (selectCols (selectRows dists lms)
              ((valid_cols.getD (List.range (dists.getD 0 []).length))))
            (match s.epsilon with
              | none => npMedian dists.flatten
              | some e => e) eig).eigenvec = none := hvec
        rw [this]
        rfl

/-- C2 witness: the freshly constructed `DMap()` is reachable and
`embed` on it fails. -/
theorem C2_witness :
    DMapReachable (DMapInit 4) ∧
    (∃ msg, DMapEmbed (DMapInit 4) [[1]] = .error msg) :=
  ⟨⟨4, Relation.ReflTransGen.refl⟩,
    (C2_embed_always_fails (DMapInit 4)
      ⟨4, Relation.ReflTransGen.refl⟩).1 [[1]]⟩

/-! ## Claim C9 -/

/-- A cell not targeted by any returned result is left untouched by the
assembly fold. -/
theorem assembleDists_untouched (lm_idx : List ℕ)
    (l : List ((ℕ × ℕ) × ℚ)) (D : ℕ → ℕ → WithTop ℚ) (i j : ℕ)
    (hD : D i j = ⊤)
    (h : ∀ p ∈ l, ¬(i = p.1.1 ∧ j = lm_idx.indexOf p.1.2)) :
    (l.foldl
      (fun D t =>
        fun a b =>
          if a = t.1.1 ∧ b = lm_idx.indexOf t.1.2 then
            ((t.2 : ℚ) : WithTop ℚ)
          else D a b)
      D) i j = ⊤ := by
  induction l generalizing D with
  | nil => exact hD
  | cons t rest ih =>
      refine ih _ ?_ (fun p hp => h p (List.mem_cons_of_mem t hp))
      have hne := h t (List.mem_cons_self t rest)
      simp only [if_neg hne]
      exact hD

/-- C9: the distance matrix starts with every cell at the `+Inf` sentinel
(`⊤`), any cell for which no (graph, landmark) task result was returned
still holds the sentinel after result assembly, and the sentinel is
distinguishable from a computed distance of `0`. -/
theorem C9_unset_cells_stay_inf (n : ℕ) (lm_idx : List ℕ)
    (results : List ℚ) (i j : ℕ)
    (h : ∀ p ∈ (taskListM n lm_idx).zip results,
        ¬(i = p.1.1 ∧ j = lm_idx.indexOf p.1.2)) :
    initDists i j = ⊤ ∧
    computeDistsMaster n lm_idx results i j = ⊤ ∧
    computeDistsMaster n lm_idx results i j ≠ ((0 : ℚ) : WithTop ℚ) := by
  have hmain : computeDistsMaster n lm_idx results i j = ⊤ :=
    assembleDists_untouched lm_idx _ initDists i j rfl h
  refine ⟨rfl, hmain, ?_⟩
  rw [hmain]
  simp

/-- C9 witness: with one graph, one landmark and no returned results,
cell `(0,0)` holds the sentinel. -/
theorem C9_witness :
    (∀ p ∈ (taskListM 1 [0]).zip ([] : List ℚ),
        ¬((0 : ℕ) = p.1.1 ∧ (0 : ℕ) = [0].indexOf p.1.2)) ∧
    computeDistsMaster 1 [0] [] 0 0 = ⊤ :=
  ⟨by simp, (C9_unset_cells_stay_inf 1 [0] [] 0 0 (by simp)).2.1⟩

/-! ## Claim C4 -/

/-- `encounter` on a stored signature whose graph passes the identity
check: counts updated in place, stable index returned. -/
theorem encounter_present (lib : GraphLibrary) (G : Graph) (c : ℚ)
    (idx : ℕ) (h : List.lookup G.sig lib.index = some idx)
    (hok : ¬ Graph.pyNe (lib.graphs.getD idx default) G) :
    lib.encounter G c =
      .ok ({ lib with
        counts := lib.counts.set idx (lib.counts.getD idx 0 + c) }, idx) := by
  simp only [GraphLibrary.encounter, h]
  rw [if_neg hok]

/-- `encounter` on an absent signature: graph, signature and count are
appended and the signature→index mapping recorded. -/
theorem encounter_absent (lib : GraphLibrary) (G : Graph) (c : ℚ)
    (h : List.lookup G.sig lib.index = none) :
    lib.encounter G c =
      .ok ({ lib with
        sigs := lib.sigs ++ [G.sig]
        graphs := lib.graphs ++ [G]
        counts := lib.counts ++ [c]
        index := (G.sig, lib.graphs.length) :: lib.index },
        lib.graphs.length) := by
  simp only [GraphLibrary.encounter, h]
  rw [getD_append_length]
  rw [if_neg (by simp [Graph.pyNe, distSq_self])]

/-- C4: re-encountering the same graph returns the same index both
times, the stored count grows by the observed amount on each call, and a
first absent encounter appends the graph and records its
signature→index mapping.  (A signature collision would make `encounter`
raise instead of return, so success of the first call already excludes
it.) -/
theorem C4_encounter_reobservation (lib : GraphLibrary) (g : Graph)
    (c1 c2 : ℚ) (lib1 : GraphLibrary) (i1 : ℕ) (hwf : lib.WF)
    (h1 : lib.encounter g c1 = .ok (lib1, i1)) :
    (∃ lib2, lib1.encounter g c2 = .ok (lib2, i1) ∧
       lib2.counts.getD i1 0 = lib1.counts.getD i1 0 + c2) ∧
    lib1.counts.getD i1 0 = lib.counts.getD i1 0 + c1 ∧
    (List.lookup g.sig lib.index = none →
       lib1.graphs = lib.graphs ++ [g] ∧
       List.lookup g.sig lib1.index = some i1) := by
  cases hfound : List.lookup g.sig lib.index with
  | none =>
      rw [encounter_absent lib g c1 hfound] at h1
      simp only [Except.ok.injEq, Prod.mk.injEq] at h1
      obtain ⟨hlib, hi⟩ := h1
      subst hlib
      subst hi
      have hlenc : lib.counts.length = lib.graphs.length := hwf.1
      have hlook1 : List.lookup g.sig
          ((g.sig, lib.graphs.length) :: lib.index) =
          some lib.graphs.length := by
        rw [List.lookup_cons]
        simp
      have hget : (lib.graphs ++ [g]).getD lib.graphs.length default = g :=
        getD_append_length _ _ _
      have e1 : (lib.counts ++ [c1]).getD lib.graphs.length 0 = c1 := by
        rw [← hlenc]
        exact getD_append_length _ _ _
      refine ⟨?_, ?_, ?_⟩
      · refine ⟨_, encounter_present _ g c2 lib.graphs.length hlook1
          (by rw [hget]; simp [Graph.pyNe, distSq_self]), ?_⟩
        refine getD_set_self _ _ _ _ ?_
        simp [hlenc]
      · have e2 : lib.counts.getD lib.graphs.length 0 = 0 :=
          List.getD_eq_default _ _ (le_of_eq hlenc)
        rw [e1, e2, zero_add]
      · exact fun _ => ⟨rfl, hlook1⟩
  | some idx =>
      simp only [GraphLibrary.encounter, hfound] at h1
      by_cases hchk : Graph.pyNe (lib.graphs.getD idx default) g
      · rw [if_pos hchk] at h1
        exact absurd h1 (by simp)
      · rw [if_neg hchk] at h1
        simp only [Except.ok.injEq, Prod.mk.injEq] at h1
        obtain ⟨hlib, hi⟩ := h1
        subst hlib
        subst hi
        have hidxlt : idx < lib.graphs.length :=
          hwf.2.2 (g.sig, idx) (lookup_mem hfound)
        have hcnt : idx < lib.counts.length := by
          rw [hwf.1]
          exact hidxlt
        refine ⟨?_, ?_, ?_⟩
        · refine ⟨_, encounter_present _ g c2 idx hfound hchk, ?_⟩
          refine getD_set_self _ _ _ _ ?_
          simp [hcnt]
        · exact getD_set_self _ _ _ _ hcnt
        · exact fun habs => Option.noConfusion habs

/-- C4 witness: an empty library, `g = ("s", [1])`, counts `2` then `3`:
the first call appends at index `0`, the second returns index `0` again
and the count grows from `2` to `5`. -/
theorem C4_witness :
    GraphLibrary.empty.WF ∧
    GraphLibrary.empty.encounter ⟨"s", [1]⟩ 2 =
      .ok (⟨["s"], [⟨"s", [1]⟩], [2], [("s", 0)]⟩, 0) ∧
    ((∃ lib2, (⟨["s"], [⟨"s", [1]⟩], [2], [("s", 0)]⟩ :
          GraphLibrary).encounter ⟨"s", [1]⟩ 3 = .ok (lib2, 0) ∧
        lib2.counts.getD 0 0 =
          (⟨["s"], [⟨"s", [1]⟩], [2], [("s", 0)]⟩ :
            GraphLibrary).counts.getD 0 0 + 3) ∧
      (⟨["s"], [⟨"s", [1]⟩], [2], [("s", 0)]⟩ :
          GraphLibrary).counts.getD 0 0 =
        GraphLibrary.empty.counts.getD 0 0 + 2 ∧
      (List.lookup (Graph.sig ⟨"s", [1]⟩) GraphLibrary.empty.index =
          none →
        (⟨["s"], [⟨"s", [1]⟩], [2], [("s", 0)]⟩ :
            GraphLibrary).graphs =
          GraphLibrary.empty.graphs ++ [⟨"s", [1]⟩] ∧
        List.lookup (Graph.sig ⟨"s", [1]⟩)
            (⟨["s"], [⟨"s", [1]⟩], [2], [("s", 0)]⟩ :
              GraphLibrary).index = some 0)) :=
  ⟨by decide, by decide,
    C4_encounter_reobservation GraphLibrary.empty ⟨"s", [1]⟩ 2 3
      ⟨["s"], [⟨"s", [1]⟩], [2], [("s", 0)]⟩ 0 (by decide) (by decide)⟩

/-! ## Claim C5 -/

theorem map_getD_range (l : List α) (d : α) :
    (List.range l.length).map (fun i => l.getD i d) = l := by
  refine List.ext_getElem (by simp) ?_
  intro i h1 h2
  simp only [List.getElem_map, List.getElem_range]
  exact List.getD_eq_getElem l d h2

/-- The eigenvalues read off along `np.argsort(evals)[::-1]` are in
descending order. -/
theorem argsortDesc_sorted (vals : List ℚ) :
    ((argsortDesc vals).map (fun i => vals.getD i 0)).Sorted
      (fun a b => b ≤ a) := by
  unfold argsortDesc
  haveI : IsTotal ℕ (fun i j => vals.getD i 0 ≤ vals.getD j 0) :=
    ⟨fun a b => le_total _ _⟩
  haveI : IsTrans ℕ (fun i j => vals.getD i 0 ≤ vals.getD j 0) :=
    ⟨fun a b c hab hbc => le_trans hab hbc⟩
  have hs := List.sorted_insertionSort
    (fun i j => vals.getD i 0 ≤ vals.getD j 0) (List.range vals.length)
  have hrev : (List.insertionSort
      (fun i j => vals.getD i 0 ≤ vals.getD j 0)
      (List.range vals.length)).reverse.Pairwise
      (fun i j => vals.getD j 0 ≤ vals.getD i 0) :=
    List.pairwise_reverse.mpr hs
  exact hrev.map _ (fun a b h => h)

/-- Reading the values back along the argsort permutation permutes the
original eigenvalue list. -/
theorem argsortDesc_perm (vals : List ℚ) :
    ((argsortDesc vals).map (fun i => vals.getD i 0)).Perm vals := by
  unfold argsortDesc
  have h1 : (List.insertionSort (fun i j => vals.getD i 0 ≤ vals.getD j 0)
      (List.range vals.length)).reverse.Perm (List.range vals.length) :=
    (List.reverse_perm _).trans (List.perm_insertionSort _ _)
  have h2 := h1.map (fun i => vals.getD i 0)
  rw [map_getD_range] at h2
  exact h2

/-- C5: `DMap.compute` takes the real parts of the eigendecomposition,
orders the eigenvalues descending (a sorted permutation of the real
parts), discards the first entry of that order, and stores exactly the
next `num_evec` eigenvalues with the eigenvector columns at the very same
argsort positions. -/
theorem C5_compute_postprocessing (k : ℕ) (evalsC : List (ℚ × ℚ))
    (evecColsC : List (List (ℚ × ℚ))) :
    (((argsortDesc (realList evalsC)).map
        (fun i => (realList evalsC).getD i 0)).Sorted (fun a b => b ≤ a)) ∧
    ((argsortDesc (realList evalsC)).map
        (fun i => (realList evalsC).getD i 0)).Perm (realList evalsC) ∧
    (computePost k evalsC evecColsC).1 =
      (((argsortDesc (realList evalsC)).map
          (fun i => (realList evalsC).getD i 0)).drop 1).take k ∧
    (computePost k evalsC evecColsC).1.length =
      min k ((realList evalsC).length - 1) ∧
    ((computePost k evalsC evecColsC).1).zip
        ((computePost k evalsC evecColsC).2) =
      (((argsortDesc (realList evalsC)).drop 1).take k).map
        (fun i => ((realList evalsC).getD i 0,
          (evecColsC.map realList).getD i [])) := by
  refine ⟨argsortDesc_sorted _, argsortDesc_perm _, rfl, ?_, ?_⟩
  · simp only [computePost, List.length_take, List.length_drop,
      List.length_map]
    unfold argsortDesc
    rw [List.length_reverse, List.length_insertionSort, List.length_range]
  · simp only [computePost]
    rw [← List.map_drop, ← List.map_take, ← List.map_drop, ← List.map_take,
      List.zip_map']

/-! ## Claim C7 -/

theorem lookup_dictSet_self (d : List (ℕ × Lookup)) (k : ℕ) (v : Lookup) :
    List.lookup k (dictSet d k v) = some v := by
  simp [dictSet, List.lookup_cons]

theorem lookup_dictSet_isSome (d : List (ℕ × Lookup)) (k k' : ℕ)
    (v : Lookup) (h : (List.lookup k' d).isSome = true) :
    (List.lookup k' (dictSet d k v)).isSome = true := by
  cases hbeq : (k' == k) <;>
    simp [dictSet, List.lookup_cons, hbeq, h]

/-- Presence of a key survives the lookup-merge loop. -/
theorem mergeFold_presence (olk : List (ℕ × Lookup))
    (st : List (ℕ × Lookup) × List String) (k : ℕ)
    (h : (List.lookup k st.1).isSome = true) :
    (List.lookup k (olk.foldl mergeStep st).1).isSome = true := by
  induction olk generalizing st with
  | nil => exact h
  | cons kv rest ih =>
      exact ih (mergeStep st kv) (lookup_dictSet_isSome _ _ _ _ h)

/-- A key contained in the merged-in lookup is present afterwards. -/
theorem mergeFold_present_of_mem (olk : List (ℕ × Lookup))
    (st : List (ℕ × Lookup) × List String) (k : ℕ) (v : Lookup)
    (h : (k, v) ∈ olk) :
    (List.lookup k (olk.foldl mergeStep st).1).isSome = true := by
  induction olk generalizing st with
  | nil => cases h
  | cons kv rest ih =>
      cases h with
      | head =>
          refine mergeFold_presence rest (mergeStep st (k, v)) k ?_
          rw [show (mergeStep st (k, v)).1 = dictSet st.1 k v from rfl,
            lookup_dictSet_self]
          rfl
      | tail _ hmem => exact ih (mergeStep st kv) hmem

/-- Warnings already emitted survive the lookup-merge loop. -/
theorem mergeFold_warn_mono (olk : List (ℕ × Lookup))
    (st : List (ℕ × Lookup) × List String) (x : String)
    (h : x ∈ st.2) : x ∈ (olk.foldl mergeStep st).2 := by
  induction olk generalizing st with
  | nil => exact h
  | cons kv rest ih =>
      refine ih (mergeStep st kv) ?_
      show x ∈ (if (List.lookup kv.1 st.1).isSome then
        st.2 ++ [dupKeyWarning] else st.2)
      by_cases hc : (List.lookup kv.1 st.1).isSome = true
      · rw [if_pos hc]
        exact List.mem_append_left _ h
      · rw [if_neg hc]
        exact h

/-- Merging a lookup that contains an already-present key emits the
duplicate-key warning. -/
theorem mergeFold_warn (olk : List (ℕ × Lookup))
    (st : List (ℕ × Lookup) × List String) (k : ℕ) (v : Lookup)
    (hmem : (k, v) ∈ olk)
    (hpres : (List.lookup k st.1).isSome = true) :
    dupKeyWarning ∈ (olk.foldl mergeStep st).2 := by
  induction olk generalizing st with
  | nil => cases hmem
  | cons kv rest ih =>
      cases hmem with
      | head =>
          refine mergeFold_warn_mono rest (mergeStep st (k, v)) _ ?_
          show dupKeyWarning ∈ (if (List.lookup k st.1).isSome then
            st.2 ++ [dupKeyWarning] else st.2)
          rw [if_pos hpres]
          exact List.mem_append_right _ (List.mem_singleton.mpr rfl)
      | tail _ hmem' =>
          exact ih (mergeStep st kv) hmem'
            (lookup_dictSet_isSome _ _ _ _ hpres)

/-- Inversion of a successful `Except` bind. -/
theorem except_bind_ok {ε α β : Type} (x : Except ε α) (f : α → Except ε β)
    (r : β) (h : x.bind f = .ok r) : ∃ m, x = .ok m ∧ f m = .ok r := by
  cases x with
  | error e => exact absurd h (by simp [Except.bind])
  | ok a => exact ⟨a, rfl, h⟩

/-- What a successful `collectStep` does to lookups and warnings. -/
theorem collectStep_ok (p : Ensemble × List String) (o : Ensemble)
    (q : Ensemble × List String) (h : Ensemble.collectStep p o = .ok q) :
    q.1.lookups = (mergeLookupsOne p.1.lookups o.lookups).1 ∧
    q.2 = p.2 ++ (mergeLookupsOne p.1.lookups o.lookups).2 := by
  unfold Ensemble.collectStep at h
  cases hlib : (p.1.library.collectPy [PyVal.lib o.library] true).mapError
      Prod.fst with
  | error e =>
      rw [hlib] at h
      exact absurd h (by simp [Except.bind])
  | ok lib' =>
      rw [hlib] at h
      simp only [bind, Except.bind, pure, Except.pure, Except.ok.injEq] at h
      subst h
      exact ⟨rfl, rfl⟩

/-- Warnings accumulated so far survive the rest of the collect run. -/
theorem collectRun_warn_mono (os : List Ensemble)
    (st : Ensemble × List String) (r : Ensemble × List String)
    (h : os.foldlM Ensemble.collectStep st = .ok r) (x : String)
    (hx : x ∈ st.2) : x ∈ r.2 := by
  induction os generalizing st with
  | nil =>
      simp only [List.foldlM_nil, pure, Except.pure, Except.ok.injEq] at h
      subst h
      exact hx
  | cons o rest ih =>
      rw [List.foldlM_cons] at h
      obtain ⟨m, hm, hrest⟩ := except_bind_ok _ _ _ h
      refine ih m hrest ?_
      rw [(collectStep_ok st o m hm).2]
      exact List.mem_append_left _ hx

/-- Presence of a lookup key survives the rest of the collect run. -/
theorem collectRun_presence (os : List Ensemble)
    (st : Ensemble × List String) (r : Ensemble × List String)
    (h : os.foldlM Ensemble.collectStep st = .ok r) (k : ℕ)
    (hk : (List.lookup k st.1.lookups).isSome = true) :
    (List.lookup k r.1.lookups).isSome = true := by
  induction os generalizing st with
  | nil =>
      simp only [List.foldlM_nil, pure, Except.pure, Except.ok.injEq] at h
      subst h
      exact hk
  | cons o rest ih =>
      rw [List.foldlM_cons] at h
      obtain ⟨m, hm, hrest⟩ := except_bind_ok _ _ _ h
      refine ih m hrest ?_
      rw [(collectStep_ok st o m hm).1]
      exact mergeFold_presence _ _ _ hk

/-- C7: when two gathered worker ensembles contain the same frame-index
key, a successful `Ensemble.collect` emits the duplicate-key warning —
the collision is flagged, the entry is overwritten with the warning on
record rather than silently, and the key is still present at the end. -/
theorem C7_duplicate_key_flagged (e : Ensemble)
    (pre mid post : List Ensemble) (oa ob : Ensemble) (key : ℕ)
    (e' : Ensemble) (warns : List String)
    (hrun : e.collectMaster (pre ++ oa :: (mid ++ ob :: post)) =
      .ok (e', warns))
    (ha : (List.lookup key oa.lookups).isSome = true)
    (hb : (List.lookup key ob.lookups).isSome = true) :
    dupKeyWarning ∈ warns ∧
    (List.lookup key e'.lookups).isSome = true := by
  unfold Ensemble.collectMaster at hrun
  rw [List.foldlM_append] at hrun
  obtain ⟨s1, hpre, hrun1⟩ := except_bind_ok _ _ _ hrun
  rw [List.foldlM_cons] at hrun1
  obtain ⟨s2, hoa, hrun2⟩ := except_bind_ok _ _ _ hrun1
  rw [List.foldlM_append] at hrun2
  obtain ⟨s3, hmid, hrun3⟩ := except_bind_ok _ _ _ hrun2
  rw [List.foldlM_cons] at hrun3
  obtain ⟨s4, hob, hrun4⟩ := except_bind_ok _ _ _ hrun3
  obtain ⟨va, hva⟩ := Option.isSome_iff_exists.mp ha
  obtain ⟨vb, hvb⟩ := Option.isSome_iff_exists.mp hb
  have hs2 : (List.lookup key s2.1.lookups).isSome = true := by
    rw [(collectStep_ok s1 oa s2 hoa).1]
    exact mergeFold_present_of_mem _ _ _ va (lookup_mem hva)
  have hs3 : (List.lookup key s3.1.lookups).isSome = true :=
    collectRun_presence _ _ _ hmid _ hs2
  have hdup : dupKeyWarning ∈ s4.2 := by
    rw [(collectStep_ok s3 ob s4 hob).2]
    exact List.mem_append_right _
      (mergeFold_warn _ _ _ vb (lookup_mem hvb) hs3)
  have hs4 : (List.lookup key s4.1.lookups).isSome = true := by
    rw [(collectStep_ok s3 ob s4 hob).1]
    exact mergeFold_presence _ _ _ hs3
  exact ⟨collectRun_warn_mono _ _ _ hrun4 _ hdup,
    collectRun_presence _ _ _ hrun4 _ hs4⟩

/-- C7 witness: two worker ensembles both carrying frame key `5`; the
merge succeeds, emits the duplicate-key warning once, and keeps the
key. -/
theorem C7_witness :
    Ensemble.collectMaster ⟨GraphLibrary.empty, []⟩
        ([] ++ (⟨GraphLibrary.empty, [(5, [("s", [1])])]⟩ : Ensemble) ::
          ([] ++ (⟨GraphLibrary.empty, [(5, [("s", [2])])]⟩ : Ensemble)
            :: [])) =
      .ok (⟨GraphLibrary.empty, [(5, [("s", [2])]), (5, [("s", [1])])]⟩,
        [dupKeyWarning]) ∧
    (List.lookup 5 ([(5, [("s", [1])])] : List (ℕ × Lookup))).isSome =
      true ∧
    (List.lookup 5 ([(5, [("s", [2])])] : List (ℕ × Lookup))).isSome =
      true ∧
    (dupKeyWarning ∈ [dupKeyWarning] ∧
      (List.lookup 5
        (Ensemble.lookups ⟨GraphLibrary.empty,
          [(5, [("s", [2])]), (5, [("s", [1])])]⟩)).isSome = true) :=
  ⟨by decide, by decide, by decide,
    C7_duplicate_key_flagged ⟨GraphLibrary.empty, []⟩ [] [] []
      ⟨GraphLibrary.empty, [(5, [("s", [1])])]⟩
      ⟨GraphLibrary.empty, [(5, [("s", [2])])]⟩ 5
      ⟨GraphLibrary.empty, [(5, [("s", [2])]), (5, [("s", [1])])]⟩
      [dupKeyWarning] (by decide) (by decide) (by decide)⟩

/-- C1 witness: the amended kernel/Markov statement evaluated at a
concrete 1×1 distance matrix. -/
theorem C1_witness :
    kernelRaw 1 (fun _ _ => 2) 2 0 0 =
      Real.exp (-(2 : ℝ) ^ 2 / (2 * 2)) ∧
    markovMatrix 1 (fun _ _ => 2) 2 0 0 =
      kernelRaw 1 (fun _ _ => 2) 2 0 0 /
        rowSum 1 (kernelRaw 1 (fun _ _ => 2) 2) 0 :=
  C1_kernel_and_markov 1 (fun _ _ => 2) 2 0 0

/-- C5 witness: the post-processing statement evaluated at the concrete
eigendecomposition `evals = [1, 5, 3]` (plus imaginary parts) with
`num_evec = 2`: kept eigenvalues `[3, 1]`, kept columns `[[30], [10]]`. -/
theorem C5_witness :
    (computePost 2 [(1, 0), (5, 0), (3, 2)]
        [[(10, 0)], [(50, 0)], [(30, 1)]]).1 = [3, 1] ∧
    (computePost 2 [(1, 0), (5, 0), (3, 2)]
        [[(10, 0)], [(50, 0)], [(30, 1)]]).2 = [[30], [10]] ∧
    (((argsortDesc (realList [(1, 0), (5, 0), (3, 2)])).map
        (fun i => (realList [(1, 0), (5, 0), (3, 2)]).getD i 0)).Sorted
      (fun a b => b ≤ a)) :=
  ⟨by decide, by decide,
    (C5_compute_postprocessing 2 [(1, 0), (5, 0), (3, 2)]
      [[(10, 0)], [(50, 0)], [(30, 1)]]).1⟩

/-- C8 witness: the amended type-check statement evaluated at a concrete
library and scalar. -/
theorem C8_witness :
    GraphLibrary.empty.collectPy (PyVal.scalar 7 :: []) true =
      .error (.typeError, GraphLibrary.empty) ∧
    GraphLibrary.empty.collectArg (.single (.scalar 7)) true =
      .error (.typeError, GraphLibrary.empty) :=
  C8_collect_type_check GraphLibrary.empty 7 [] true

end Crayon
